import Mathlib

/-!
Verification of the BusTub buffer-pool core: a shallow embedding of
`src/buffer/clock_replacer.cpp` and `src/buffer/buffer_pool_manager.cpp`
(and the spec-described collaborators they use), followed by theorems
settling the specification claims about them.

Machine integers (`frame_id_t`, `page_id_t`, `int` counters) are modelled
as `Int`; the values arising in every state considered here are far from
the 32-bit overflow boundary.  Operations whose C++ source can exhibit
undefined behavior (`std::unordered_map::erase(end())`,
`std::list::front()` on an empty list, a write through a `-1` vector
index, a potentially non-terminating sweep loop) return `Option` and
yield `none` exactly on those executions.
-/

namespace Bustub

/-! ## Association-list model of `std::unordered_map<int,int>` -/

/-- Lookup in an association list (model of `unordered_map::find` /
`count`; keys are kept unique by the operations below). -/
def alookup : List (Int × Int) → Int → Option Int
  | [], _ => none
  | e :: rest, k => if e.1 == k then some e.2 else alookup rest k

/-- Model of `map[k] = v`: overwrite the existing entry or append a new one. -/
def aset : List (Int × Int) → Int → Int → List (Int × Int)
  | [], k, v => [(k, v)]
  | e :: rest, k, v => if e.1 == k then (k, v) :: rest else e :: aset rest k v

/-- Model of `map.erase(map.find(k))` for a present key `k`. -/
def aerase (t : List (Int × Int)) (k : Int) : List (Int × Int) :=
  t.filter (fun e => !(e.1 == k))

/-! ## List model of `std::unordered_set<int>` -/

/-- Model of `unordered_set::insert` (no duplicates). -/
def sinsert (l : List Int) (x : Int) : List Int :=
  if l.contains x then l else l ++ [x]

/-- Model of `unordered_set::erase`. -/
def serase (l : List Int) (x : Int) : List Int :=
  l.filter (fun y => !(y == x))

/-! ## Vector indexing helpers -/

/-- Read `v[i]` for an `Int` index; all in-range uses below have
`0 ≤ i < length`, so the default is never consulted on those paths. -/
def idx (l : List Int) (i : Int) : Int :=
  l.getD i.toNat (-1)

/-- Write `v[i] = x` for an `Int` index (in-range on all reachable uses). -/
def setI (l : List Int) (i : Int) (x : Int) : List Int :=
  l.set i.toNat x

/-! ## ClockReplacer (`src/buffer/clock_replacer.cpp`) -/

/-- State of `ClockReplacer`: the fields of the C++ class.  `buckets[i] = -1`
marks an empty slot; `map` sends a tracked frame id to its slot;
`recent_pinned` is the tombstone set of re-pinned frames. -/
structure ClockReplacer where
  capacity : Int
  cur_size : Int
  clock_hand : Int
  buckets : List Int
  ref_bits : List Int
  map : List (Int × Int)
  recent_pinned : List Int
deriving DecidableEq

/-- `ClockReplacer::ClockReplacer(num_pages)`. -/
def ClockReplacer.mk0 (num_pages : Nat) : ClockReplacer :=
  { capacity := (num_pages : Int)
    cur_size := 0
    clock_hand := 0
    buckets := List.replicate num_pages (-1)
    ref_bits := List.replicate num_pages (-1)
    map := []
    recent_pinned := [] }

/-- `ClockReplacer::find_next_available(start)`: first slot, scanning the
ring forward from `start`, that is empty or holds a tombstoned frame;
`-1` when none exists. -/
def ClockReplacer.find_next_available (r : ClockReplacer) (start : Int) : Int :=
  ((List.range r.capacity.toNat).findSome? (fun i =>
    let cur_slot := ((i : Int) + start) % r.capacity
    let b := idx r.buckets cur_slot
    if b == -1 then some cur_slot
    else if r.recent_pinned.contains b then some cur_slot
    else none)).getD (-1)

/-- The `while (sweep_cnt < cur_size)` loop of `ClockReplacer::Victim`,
followed by the smallest-remaining-bucket fallback; fuel-indexed, with
`none` modelling a non-terminating loop or the undefined
`map.erase(map.find(ans))` on an absent key. -/
def ClockReplacer.victimSweep : ClockReplacer → Int → Nat → Option (Bool × Int × ClockReplacer)
  | _, _, 0 => none
  | r, sweep_cnt, fuel + 1 =>
    if sweep_cnt < r.cur_size then
      let hand := r.clock_hand % r.capacity
      let b := idx r.buckets hand
      if b == -1 || r.recent_pinned.contains b then
        ClockReplacer.victimSweep { r with clock_hand := hand + 1 } sweep_cnt fuel
      else if idx r.ref_bits hand == 1 then
        ClockReplacer.victimSweep
          { r with ref_bits := setI r.ref_bits hand 0, clock_hand := hand + 1 }
          (sweep_cnt + 1) fuel
      else
        match alookup r.map b with
        | none => none
        | some _ =>
          some (true, b,
            { r with buckets := setI r.buckets hand (-1)
                     clock_hand := hand + 1
                     map := aerase r.map b
                     cur_size := r.cur_size - 1 })
    else
      let smallest := r.buckets.foldl
        (fun acc b => if b != -1 && b < acc then b else acc) 2147483647
      match alookup r.map smallest with
      | none => none
      | some _ =>
        some (true, smallest,
          { r with map := aerase r.map smallest, cur_size := r.cur_size - 1 })

/-- `ClockReplacer::Victim(frame_id)`: result is `(returned bool, value
written through frame_id when true, new state)`; on `false` the out
parameter is not written, which callers model by keeping their old value. -/
def ClockReplacer.Victim (r : ClockReplacer) : Option (Bool × Int × ClockReplacer) :=
  if r.cur_size == 0 then some (false, 0, r)
  else ClockReplacer.victimSweep r 0 ((r.cur_size.toNat + 2) * (r.capacity.toNat + 1) + 2)

/-- `ClockReplacer::Pin(frame_id)`. -/
def ClockReplacer.Pin (r : ClockReplacer) (frame_id : Int) : ClockReplacer :=
  if (alookup r.map frame_id).isNone then r
  else { r with recent_pinned := sinsert r.recent_pinned frame_id
                cur_size := r.cur_size - 1 }

/-- `ClockReplacer::Unpin(frame_id)`; `none` models the undefined
`buckets[-1]` write when `find_next_available` finds no slot. -/
def ClockReplacer.Unpin (r : ClockReplacer) (frame_id : Int) : Option ClockReplacer :=
  if frame_id > r.capacity then some r
  else
    match alookup r.map frame_id with
    | none =>
      let slot := r.find_next_available r.clock_hand
      if slot == -1 then none
      else
        some { r with buckets := setI r.buckets slot frame_id
                      ref_bits := setI r.ref_bits slot 0
                      map := aset r.map frame_id slot
                      cur_size := r.cur_size + 1 }
    | some slot0 =>
      if r.recent_pinned.contains frame_id then
        some { r with recent_pinned := serase r.recent_pinned frame_id
                      ref_bits := setI r.ref_bits slot0 1
                      cur_size := r.cur_size + 1 }
      else some r

/-- `ClockReplacer::Size()`. -/
def ClockReplacer.Size (r : ClockReplacer) : Int :=
  r.cur_size

/-! ## Page and disk collaborator -/

/-- Modelled from the spec: the reserved "no page" sentinel of §6; the
`INVALID_PAGE_ID` constant lives in `common/config.h`, which is not part
of the sources, and per spec §3 it marks an unbound frame. -/
def INVALID_PAGE_ID : Int := -1

/-- Frame metadata and content (`Page` of `page.h`, not among the sources):
per spec §3 a frame is page id (sentinel when unbound), pin count, dirty
flag and a fixed byte buffer; the buffer is modelled as one `Int` value
whose zero-fill (`ResetMemory`) is the value `0`. -/
structure Page where
  page_id_ : Int
  pin_count_ : Int
  is_dirty_ : Bool
  data_ : Int
deriving DecidableEq

/-- Modelled from the spec: a fresh frame is unbound (sentinel page id),
pin count 0, clean, zeroed (spec §3 data model and lifecycle). -/
def Page.init : Page :=
  { page_id_ := INVALID_PAGE_ID, pin_count_ := 0, is_dirty_ := false, data_ := 0 }

/-- One call made to the disk collaborator, recorded in order. -/
inductive DiskEv where
  | readP : Int → DiskEv
  | writeP : Int → Int → DiskEv
  | allocP : Int → DiskEv
  | deallocP : Int → DiskEv
deriving DecidableEq

/-- Modelled from the spec: the disk collaborator of §6 (`DiskManager`,
not among the sources) — a monotonic page-id allocator plus a synchronous
fixed-size-record store keyed by page id; every call is logged. -/
structure DiskManager where
  next_page_id_ : Int
  store_ : List (Int × Int)
  log_ : List DiskEv
deriving DecidableEq

/-- Modelled from the spec: `allocate_page() -> page_id`, monotonic. -/
def DiskManager.AllocatePage (d : DiskManager) : Int × DiskManager :=
  (d.next_page_id_,
   { d with next_page_id_ := d.next_page_id_ + 1
            log_ := d.log_ ++ [DiskEv.allocP d.next_page_id_] })

/-- Modelled from the spec: `deallocate_page(page_id)`. -/
def DiskManager.DeallocatePage (d : DiskManager) (pid : Int) : DiskManager :=
  { d with log_ := d.log_ ++ [DiskEv.deallocP pid] }

/-- Modelled from the spec: `read_page(page_id, out_buffer)`; a never
written page reads as zeroed content. -/
def DiskManager.ReadPage (d : DiskManager) (pid : Int) : Int × DiskManager :=
  ((alookup d.store_ pid).getD 0, { d with log_ := d.log_ ++ [DiskEv.readP pid] })

/-- Modelled from the spec: `write_page(page_id, buffer)`. -/
def DiskManager.WritePage (d : DiskManager) (pid : Int) (data : Int) : DiskManager :=
  { d with store_ := aset d.store_ pid data
           log_ := d.log_ ++ [DiskEv.writeP pid data] }

/-! ## BufferPoolManager (`src/buffer/buffer_pool_manager.cpp`) -/

/-- The fields of `BufferPoolManager` (its header is not among the
sources; the fields and their use are read off the `.cpp`): frame array,
replacer, free list, page table, count of frames ever bound, and the
owned disk collaborator.  `cur_size_` is modelled as `Int`. -/
structure BufferPoolManager where
  pool_size_ : Nat
  pages_ : List Page
  replacer_ : ClockReplacer
  free_list_ : List Int
  page_table_ : List (Int × Int)
  cur_size_ : Int
  disk_manager_ : DiskManager
deriving DecidableEq

/-- `pages_[fid]` (reads are in range on every path exercised here). -/
def BufferPoolManager.getPage (s : BufferPoolManager) (fid : Int) : Page :=
  s.pages_.getD fid.toNat Page.init

/-- `pages_[fid] = p`. -/
def BufferPoolManager.setPage (s : BufferPoolManager) (fid : Int) (p : Page) :
    BufferPoolManager :=
  { s with pages_ := s.pages_.set fid.toNat p }

/-- `BufferPoolManager::BufferPoolManager(pool_size, ...)`. -/
def BufferPoolManager.mk0 (pool_size : Nat) : BufferPoolManager :=
  { pool_size_ := pool_size
    pages_ := List.replicate pool_size Page.init
    replacer_ := ClockReplacer.mk0 pool_size
    free_list_ := (List.range pool_size).map (fun i => (i : Int))
    page_table_ := []
    cur_size_ := 0
    disk_manager_ := { next_page_id_ := 0, store_ := [], log_ := [] } }

/-- `BufferPoolManager::update_page_metadata(frame_id, page_id)`. -/
def BufferPoolManager.update_page_metadata (s : BufferPoolManager)
    (frame_id page_id : Int) : BufferPoolManager :=
  let s1 := { s with page_table_ := aset s.page_table_ page_id frame_id }
  let s2 := s1.setPage frame_id
    { page_id_ := page_id, pin_count_ := 1, is_dirty_ := false, data_ := 0 }
  { s2 with replacer_ := s2.replacer_.Pin frame_id }

/-- `BufferPoolManager::reset_page_metadata(frame_id)`. -/
def BufferPoolManager.reset_page_metadata (s : BufferPoolManager)
    (frame_id : Int) : BufferPoolManager :=
  s.setPage frame_id
    { page_id_ := INVALID_PAGE_ID, pin_count_ := 0, is_dirty_ := false, data_ := 0 }

/-- `BufferPoolManager::FlushPageImpl(page_id)`. -/
def BufferPoolManager.FlushPageImpl (s : BufferPoolManager) (page_id : Int) :
    Bool × BufferPoolManager :=
  match alookup s.page_table_ page_id with
  | none => (false, s)
  | some fid =>
    (true, { s with disk_manager_ :=
      s.disk_manager_.WritePage page_id (s.getPage fid).data_ })

/-- `BufferPoolManager::FetchPageImpl(page_id)`: result is the frame index
of the returned `Page*` (`none` for `nullptr`); the outer `Option` is
`none` on the undefined `page_table_.erase(page_table_.find(...))` of an
absent key. -/
def BufferPoolManager.FetchPageImpl (s : BufferPoolManager) (page_id : Int) :
    Option (Option Int × BufferPoolManager) :=
  match alookup s.page_table_ page_id with
  | some fid =>
    let p := s.getPage fid
    some (some fid, s.setPage fid { p with pin_count_ := p.pin_count_ + 1 })
  | none =>
    let pick : Option (Int × BufferPoolManager) :=
      match s.free_list_ with
      | f :: rest => some (f, { s with free_list_ := rest })
      | [] =>
        match s.replacer_.Victim with
        | none => none
        | some (ok, v, r) =>
          some (if ok then v else -1, { s with replacer_ := r })
    match pick with
    | none => none
    | some (replace_frame_id, s1) =>
      if replace_frame_id == -1 then some (none, s1)
      else
        let replace_page_id := (s1.getPage replace_frame_id).page_id_
        let s2 := if (s1.getPage replace_frame_id).is_dirty_
          then (s1.FlushPageImpl replace_page_id).2 else s1
        match alookup s2.page_table_ replace_page_id with
        | none => none
        | some _ =>
          let t3 := aset (aerase s2.page_table_ replace_page_id) page_id replace_frame_id
          let s3 := { s2 with page_table_ := t3 }
          let s4 := s3.update_page_metadata replace_frame_id page_id
          let rd := s4.disk_manager_.ReadPage page_id
          let p4 := s4.getPage replace_frame_id
          let s5 := { s4.setPage replace_frame_id { p4 with data_ := rd.1 } with
            disk_manager_ := rd.2 }
          some (some replace_frame_id, s5)

/-- `BufferPoolManager::UnpinPageImpl(page_id, is_dirty)`; the outer
`Option` is `none` on an undefined execution inside `ClockReplacer::Unpin`. -/
def BufferPoolManager.UnpinPageImpl (s : BufferPoolManager) (page_id : Int)
    (is_dirty : Bool) : Option (Bool × BufferPoolManager) :=
  if page_id == INVALID_PAGE_ID then some (false, s)
  else
    match alookup s.page_table_ page_id with
    | none => some (false, s)
    | some fid =>
      let p := s.getPage fid
      let pc := p.pin_count_ - 1
      let s1 := s.setPage fid { p with pin_count_ := pc }
      let s2? : Option BufferPoolManager :=
        if pc == 0 then
          match s1.replacer_.Unpin fid with
          | none => none
          | some r =>
            some { s1 with replacer_ := r, free_list_ := s1.free_list_ ++ [fid] }
        else some s1
      match s2? with
      | none => none
      | some s2 =>
        let p2 := s2.getPage fid
        let s3 := s2.setPage fid { p2 with is_dirty_ := p2.is_dirty_ || is_dirty }
        let s4 := if (s3.getPage fid).is_dirty_
          then (s3.FlushPageImpl page_id).2 else s3
        some (true, s4)

/-- `BufferPoolManager::NewPageImpl(page_id)`: result is
`some (frame, new page id)` for a non-null return and `none` for
`nullptr`; the outer `Option` is `none` on the undefined
`free_list_.front()` of an empty list or `page_table_.erase(end())`. -/
def BufferPoolManager.NewPageImpl (s : BufferPoolManager) :
    Option (Option (Int × Int) × BufferPoolManager) :=
  let guard? : Option (Bool × Int × BufferPoolManager) :=
    if s.cur_size_ == (s.pool_size_ : Int) && s.free_list_.isEmpty then
      match s.replacer_.Victim with
      | none => none
      | some (ok, v, r) => some (!ok, if ok then v else 0, { s with replacer_ := r })
    else some (false, 0, s)
  match guard? with
  | none => none
  | some (failed, frame_id_tmp, s0) =>
    if failed then some (none, s0)
    else
      let al := s0.disk_manager_.AllocatePage
      let new_page_id := al.1
      let s1 := { s0 with disk_manager_ := al.2 }
      if s1.cur_size_ < (s1.pool_size_ : Int) then
        match s1.free_list_ with
        | [] => none
        | f :: rest =>
          let s2 := BufferPoolManager.update_page_metadata
            { s1 with free_list_ := rest } f new_page_id
          some (some (f, new_page_id), { s2 with cur_size_ := s2.cur_size_ + 1 })
      else if s1.cur_size_ == (s1.pool_size_ : Int) then
        let pick : Option (Int × BufferPoolManager) :=
          match s1.free_list_ with
          | f :: rest => some (f, { s1 with free_list_ := rest })
          | [] =>
            match s1.replacer_.Victim with
            | none => none
            | some (ok, v, r) =>
              some (if ok then v else frame_id_tmp, { s1 with replacer_ := r })
        match pick with
        | none => none
        | some (fid, s2) =>
          let evict_page_id := (s2.getPage fid).page_id_
          match alookup s2.page_table_ evict_page_id with
          | none => none
          | some _ =>
            let s3 := { s2 with page_table_ := aerase s2.page_table_ evict_page_id }
            some (some (fid, new_page_id), s3.update_page_metadata fid new_page_id)
      else
        some (some (frame_id_tmp, new_page_id), s1)

/-- `BufferPoolManager::DeletePageImpl(page_id)`.  Note the source order:
after `page_table_.erase(it)` it evaluates `page_table_[page_id]`, whose
`operator[]` re-inserts the key with a value-initialized frame id `0`,
and that `0` is what is pushed onto the free list; `DeallocatePage` is
never called. -/
def BufferPoolManager.DeletePageImpl (s : BufferPoolManager) (page_id : Int) :
    Option (Bool × BufferPoolManager) :=
  match alookup s.page_table_ page_id with
  | none => some (true, s)
  | some fid =>
    if (s.getPage fid).pin_count_ != 0 then some (false, s)
    else
      let t1 := aerase s.page_table_ page_id
      let s1 := { s with page_table_ := t1 ++ [(page_id, 0)]
                         cur_size_ := s.cur_size_ - 1
                         free_list_ := s.free_list_ ++ [0] }
      some (true, s1.reset_page_metadata fid)

/-- `BufferPoolManager::FlushAllPagesImpl()`. -/
def BufferPoolManager.FlushAllPagesImpl (s : BufferPoolManager) : BufferPoolManager :=
  s.page_table_.foldl (fun acc e => (acc.FlushPageImpl e.1).2) s

/-! ## Operation sequences and reachability -/

/-- One call into the pool API. -/
inductive PoolOp where
  | newp : PoolOp
  | fetch : Int → PoolOp
  | unpinp : Int → Bool → PoolOp
  | flushpg : Int → PoolOp
  | deletep : Int → PoolOp
deriving DecidableEq

/-- Execute one pool call, keeping only the successor state; `none` is an
undefined execution. -/
def stepOp (s : BufferPoolManager) : PoolOp → Option BufferPoolManager
  | PoolOp.newp => (s.NewPageImpl).map (·.2)
  | PoolOp.fetch pid => (s.FetchPageImpl pid).map (·.2)
  | PoolOp.unpinp pid d => (s.UnpinPageImpl pid d).map (·.2)
  | PoolOp.flushpg pid => some (s.FlushPageImpl pid).2
  | PoolOp.deletep pid => (s.DeletePageImpl pid).map (·.2)

/-- Run a call sequence from a state; `none` as soon as one call is undefined. -/
def runTrace : BufferPoolManager → List PoolOp → Option BufferPoolManager
  | s, [] => some s
  | s, op :: rest =>
    match stepOp s op with
    | none => none
    | some s1 => runTrace s1 rest

/-- The pool states reachable from a freshly constructed pool of size `n`
by defined executions of the public operations. -/
def Reachable (n : Nat) (s : BufferPoolManager) : Prop :=
  ∃ ops, runTrace (BufferPoolManager.mk0 n) ops = some s

/-- One call into the replacer API (as the pool could issue it). -/
inductive RepOp where
  | pinR : Int → RepOp
  | unpinR : Int → RepOp
deriving DecidableEq

/-- Execute one replacer call. -/
def stepRep (r : ClockReplacer) : RepOp → Option ClockReplacer
  | RepOp.pinR f => some (r.Pin f)
  | RepOp.unpinR f => r.Unpin f

/-- Run a replacer call sequence. -/
def runRep : ClockReplacer → List RepOp → Option ClockReplacer
  | r, [] => some r
  | r, op :: rest =>
    match stepRep r op with
    | none => none
    | some r1 => runRep r1 rest

/-! ## Observations used by the claims -/

/-- The replacer tracks frame `f` as eligible: `f` is in `map` and its
slot is not tombstoned (spec §3: a slot is empty, occupied by a tracked
frame, or tombstoned; `Pin` tombstones via `recent_pinned`, the sweep
skips `recent_pinned` members). -/
def eligibleB (r : ClockReplacer) (f : Int) : Bool :=
  (alookup r.map f).isSome && !(r.recent_pinned.contains f)

/-- Frame `f` is bound in the page table: some page id maps to it. -/
def boundB (s : BufferPoolManager) (f : Int) : Bool :=
  s.page_table_.any (fun e => e.2 == f)

/-- The pin count of frame `f`. -/
def pinOf (s : BufferPoolManager) (f : Int) : Int :=
  (s.getPage f).pin_count_

/-- The reference bit of the slot the replacer's `map` assigns to `f`
(`-2` when `f` is untracked). -/
def refBitOf (r : ClockReplacer) (f : Int) : Int :=
  match alookup r.map f with
  | none => -2
  | some slot => idx r.ref_bits slot

/-- How many deallocate calls for `pid` the disk log records. -/
def deallocCount (l : List DiskEv) (pid : Int) : Nat :=
  l.countP (fun e => e == DiskEv.deallocP pid)

/-- The disk events a call appended beyond a previous log. -/
def logDelta (old new : List DiskEv) : List DiskEv :=
  new.drop old.length

/-! ## Concrete reachable states used as failing inputs -/

/-- Failing input for C1: create page 0, unpin it to pin count 0 (the
frame becomes replacer-eligible), then fetch it again (page-table hit). -/
def c1Ops : List PoolOp :=
  [PoolOp.newp, PoolOp.unpinp 0 false, PoolOp.fetch 0]

/-- The pool state `c1Ops` reaches from a size-1 pool. -/
def c1State : BufferPoolManager :=
  (runTrace (BufferPoolManager.mk0 1) c1Ops).getD (BufferPoolManager.mk0 1)

/-- Failing input for C2: create page 0, then unpin it to pin count 0. -/
def c2Ops : List PoolOp :=
  [PoolOp.newp, PoolOp.unpinp 0 false]

/-- The pool state `c2Ops` reaches from a size-1 pool. -/
def c2State : BufferPoolManager :=
  (runTrace (BufferPoolManager.mk0 1) c2Ops).getD (BufferPoolManager.mk0 1)

/-- Failing input for C3: on a size-1 pool, a new/unpin/fetch-hit/unpin
prefix leaves a stale free-list entry and a stale eligible entry; two
rebinds then drive `cur_size` of the replacer negative (a double `Pin`
of a tombstoned frame), a further fetch evicts through the corrupted
fallback, which erases frame 0 from `map` but leaves it in
`recent_pinned`; the final unpin re-registers frame 0, whose slot is now
permanently tombstoned. -/
def c3Ops : List PoolOp :=
  [PoolOp.newp, PoolOp.unpinp 0 false, PoolOp.fetch 0, PoolOp.unpinp 0 false,
   PoolOp.fetch 1, PoolOp.fetch 2, PoolOp.fetch 3, PoolOp.unpinp 3 false]

/-- The pool state `c3Ops` reaches from a size-1 pool. -/
def c3State : BufferPoolManager :=
  (runTrace (BufferPoolManager.mk0 1) c3Ops).getD (BufferPoolManager.mk0 1)

/-- Failing input for C4: create page 0 and unpin it dirty, so frame 0 is
a dirty victim candidate (on the free list and replacer-eligible). -/
def c4Ops : List PoolOp :=
  [PoolOp.newp, PoolOp.unpinp 0 true]

/-- The pool state `c4Ops` reaches from a size-1 pool. -/
def c4State : BufferPoolManager :=
  (runTrace (BufferPoolManager.mk0 1) c4Ops).getD (BufferPoolManager.mk0 1)

/-- The state `NewPageImpl` leaves from `c4State`. -/
def c4New : BufferPoolManager :=
  ((c4State.NewPageImpl).map (·.2)).getD c4State

/-- The state `FetchPageImpl 1` leaves from `c4State` (the contrast:
fetching a fresh page on the same state does write the victim back). -/
def c4Fetch : BufferPoolManager :=
  ((c4State.FetchPageImpl 1).map (·.2)).getD c4State

/-- Failing input for C5: bind pages 0 and 1 into frames 0 and 1 of a
size-2 pool, unpin page 1, then delete page 1 (resident, pin count 0). -/
def c5Ops : List PoolOp :=
  [PoolOp.newp, PoolOp.newp, PoolOp.unpinp 1 false]

/-- The pool state `c5Ops` reaches from a size-2 pool. -/
def c5State : BufferPoolManager :=
  (runTrace (BufferPoolManager.mk0 2) c5Ops).getD (BufferPoolManager.mk0 2)

/-- The state `DeletePageImpl 1` leaves from `c5State`. -/
def c5Del : BufferPoolManager :=
  ((c5State.DeletePageImpl 1).map (·.2)).getD c5State

/-- Failing input for C8: on a capacity-3 replacer, track frames 1 and 0,
tombstone both, then revive frame 1 with reference bit 1.  The one
eligible frame (1) carries bit 1, so a full counted sweep finds no
bit-0 slot and `Victim` reaches its fallback. -/
def c8Ops : List RepOp :=
  [RepOp.unpinR 1, RepOp.unpinR 0, RepOp.pinR 0, RepOp.pinR 1, RepOp.unpinR 1]

/-- The replacer state `c8Ops` reaches from a fresh capacity-3 replacer. -/
def c8State : ClockReplacer :=
  (runRep (ClockReplacer.mk0 3) c8Ops).getD (ClockReplacer.mk0 3)

/-- The replacer state `Victim` leaves from `c8State`. -/
def c8Vic : ClockReplacer :=
  ((c8State.Victim).map (·.2.2)).getD c8State

/-- The observations of claim C9's scenario on frames `A` and `B` of a
capacity-3 replacer: the reference bit of `A` after
`unpin A; unpin B; pin A; unpin A`, then the first `Victim` call's result
and `A`'s bit after it, then the second `Victim` call's result. -/
def c9obs (A B : Nat) : Option (Int × Bool × Int × Int × Bool × Int) :=
  match runRep (ClockReplacer.mk0 3)
    [RepOp.unpinR (A : Int), RepOp.unpinR (B : Int),
     RepOp.pinR (A : Int), RepOp.unpinR (A : Int)] with
  | none => none
  | some r =>
    match r.Victim with
    | none => none
    | some (ok1, f1, r1) =>
      match r1.Victim with
      | none => none
      | some (ok2, f2, _) =>
        some (refBitOf r (A : Int), ok1, f1, refBitOf r1 (A : Int), ok2, f2)

/-- A size-1 pool with page 0 resident and dirty (used to witness C10). -/
def c10State : BufferPoolManager :=
  (runTrace (BufferPoolManager.mk0 1)
    [PoolOp.newp, PoolOp.unpinp 0 true, PoolOp.fetch 0]).getD (BufferPoolManager.mk0 1)

/-! ## Machinery for the capacity-bound claim (C6) -/

/-- One successful new/fetch call: `none` is `NewPage`, `some pid` is
`FetchPage pid`; the result is `(realized page id, next state)`, and the
whole step is `none` when the call is undefined or returns the failure
value (`nullptr`). -/
def stepNF (s : BufferPoolManager) : Option Int → Option (Int × BufferPoolManager)
  | none =>
    match s.NewPageImpl with
    | some (some (_, npid), s1) => some (npid, s1)
    | _ => none
  | some pid =>
    match s.FetchPageImpl pid with
    | some (some _, s1) => some (pid, s1)
    | _ => none

/-- Run a sequence of new/fetch calls, all required to succeed, and
collect the realized page ids. -/
def runNF : BufferPoolManager → List (Option Int) → Option (BufferPoolManager × List Int)
  | s, [] => some (s, [])
  | s, op :: rest =>
    match stepNF s op with
    | none => none
    | some (pid, s1) =>
      match runNF s1 rest with
      | none => none
      | some (t, ids) => some (t, pid :: ids)

/-- The frame metadata right after `update_page_metadata(i, i)`. -/
def boundPage (i : Nat) : Page :=
  { page_id_ := (i : Int), pin_count_ := 1, is_dirty_ := false, data_ := 0 }

/-- The page table after pages `0..k-1` were bound into frames `0..k-1`. -/
def canonTable (k : Nat) : List (Int × Int) :=
  (List.range k).map (fun i => ((i : Int), (i : Int)))

/-- The frame array with frames `0..k-1` bound pinned, the rest fresh. -/
def canonPages (N k : Nat) : List Page :=
  (List.range N).map (fun i => if i < k then boundPage i else Page.init)

/-- The free list holding frames `k..N-1`. -/
def canonFree (N k : Nat) : List Int :=
  (List.range' k (N - k)).map (fun i => (i : Int))

/-- The disk log after `k` allocations. -/
def canonLog (k : Nat) : List DiskEv :=
  (List.range k).map (fun i => DiskEv.allocP (i : Int))

/-- The page ids `k, k+1, ...` a run of `len` successful `NewPage` calls
realizes starting from `k` prior allocations. -/
def canonIds (k len : Nat) : List Int :=
  (List.range' k len).map (fun i => (i : Int))

/-- The pool state after `k` successful `NewPage` calls on a fresh pool
of size `N` (for `k ≤ N`): pages `0..k-1` bound pinned in frames
`0..k-1`, frames `k..N-1` still free, the replacer untouched. -/
def canonS (N k : Nat) : BufferPoolManager :=
  { pool_size_ := N
    pages_ := canonPages N k
    replacer_ := ClockReplacer.mk0 N
    free_list_ := canonFree N k
    page_table_ := canonTable k
    cur_size_ := (k : Int)
    disk_manager_ := { next_page_id_ := (k : Int)
                       store_ := []
                       log_ := canonLog k } }

/-! ## Theorems -/

/-- C1.  The claimed invariant "pin_count > 0 ⇒ the frame is not in the
replacer's eligible set" fails on the code: the state reached by
`c1Ops` (new page 0; unpin it; fetch it again, a page-table hit on a
then-eligible frame) is reachable, and in it frame 0 has pin count 1 yet
is still tracked as eligible — `FetchPageImpl`'s hit path only increments
`pin_count_` and never calls `replacer_->Pin`. -/
theorem c1_fetch_hit_leaves_frame_eligible :
    runTrace (BufferPoolManager.mk0 1) c1Ops = some c1State ∧
    pinOf c1State 0 = 1 ∧
    eligibleB c1State.replacer_ 0 = true := by decide

/-- C2.  The claimed invariant "a frame id is in the free list or bound in
the page table, never both" fails on the code: after `c2Ops` (new page 0;
unpin it to pin count 0), `UnpinPageImpl` has pushed the still-bound frame
0 onto the free list. -/
theorem c2_unpin_pushes_bound_frame_on_free_list :
    runTrace (BufferPoolManager.mk0 1) c2Ops = some c2State ∧
    c2State.free_list_.contains 0 = true ∧
    boundB c2State 0 = true := by decide

/-- C3.  The claimed invariant "a bound frame with pin_count 0 that has
been registered with the replacer is tracked as eligible" fails on the
code: in the reachable state after `c3Ops`, frame 0 is bound (to page 3),
has pin count 0, and was just registered by the final unpin
(`ClockReplacer::Unpin` gave it a `map` entry), yet a stale tombstone for
frame 0 is still in `recent_pinned`, so its slot reads as tombstoned and
the frame is not eligible. -/
theorem c3_registered_unpinned_frame_not_eligible :
    runTrace (BufferPoolManager.mk0 1) c3Ops = some c3State ∧
    alookup c3State.page_table_ 3 = some 0 ∧
    boundB c3State 0 = true ∧
    pinOf c3State 0 = 0 ∧
    (alookup c3State.replacer_.map 0).isSome = true ∧
    c3State.replacer_.recent_pinned.contains 0 = true ∧
    eligibleB c3State.replacer_ 0 = false := by decide

/-- C4.  The claim that `NewPage` binds with the same eviction steps as
`FetchPage`'s miss path — in particular writing a dirty victim back —
fails on the code: from the reachable state `c4State` (frame 0 dirty,
victim candidate), `NewPageImpl` succeeds, rebinds the dirty frame 0, and
its only disk call is the allocation (no write-back), while
`FetchPageImpl` of a fresh page on the same state does write the victim's
bytes back. -/
theorem c4_new_page_skips_dirty_victim_writeback :
    runTrace (BufferPoolManager.mk0 1) c4Ops = some c4State ∧
    (c4State.getPage 0).is_dirty_ = true ∧
    c4State.NewPageImpl = some (some (0, 1), c4New) ∧
    logDelta c4State.disk_manager_.log_ c4New.disk_manager_.log_ = [DiskEv.allocP 1] ∧
    c4State.FetchPageImpl 1 = some (some 0, c4Fetch) ∧
    (logDelta c4State.disk_manager_.log_ c4Fetch.disk_manager_.log_).contains
      (DiskEv.writeP 0 0) = true := by decide

/-- C5.  The claimed delete semantics fail on the code: in the reachable
state `c5State`, page 1 is resident in frame 1 with pin count 0, and
`DeletePageImpl 1` (a) leaves a page-table entry for page 1 — the
post-erase `page_table_[page_id]` re-inserts it mapped to frame 0, (b)
pushes frame 0, not frame 1, onto the free list, and (c) never calls the
disk collaborator's deallocate. -/
theorem c5_delete_ghost_entry_wrong_frame_no_dealloc :
    runTrace (BufferPoolManager.mk0 2) c5Ops = some c5State ∧
    alookup c5State.page_table_ 1 = some 1 ∧
    pinOf c5State 1 = 0 ∧
    c5State.DeletePageImpl 1 = some (true, c5Del) ∧
    alookup c5Del.page_table_ 1 = some 0 ∧
    c5Del.free_list_ = c5State.free_list_ ++ [0] ∧
    c5Del.getPage 1 = Page.init ∧
    deallocCount (logDelta c5State.disk_manager_.log_ c5Del.disk_manager_.log_) 1 = 0 := by
  decide

/-- C7.  The claim that a fetch miss performs the page-table removal only
when an entry exists — and in particular that the very first fetch on a
fresh pool is well-defined — fails on the code: on a freshly constructed
size-1 pool the victim frame comes from the free list with the unbound
sentinel as its page id, no table entry for the sentinel exists, and
`FetchPageImpl` unconditionally executes
`page_table_.erase(page_table_.find(replace_page_id))`, i.e.
`erase(end())`: undefined behavior, modelled as `none`. -/
theorem c7_first_fetch_erases_absent_key :
    (BufferPoolManager.mk0 1).getPage 0 = Page.init ∧
    alookup (BufferPoolManager.mk0 1).page_table_ INVALID_PAGE_ID = none ∧
    (BufferPoolManager.mk0 1).FetchPageImpl 0 = none := by decide

/-- C8.  The claimed fallback of `Victim` — evicting the smallest
remaining tracked frame id, where tracked excludes tombstoned frames —
fails on the code: in the replacer state after `c8Ops`, the single
eligible frame is 1 (reference bit 1) and frame 0 is tombstoned; the full
counted sweep (one step, `Size` is 1) clears frame 1's bit and finds no
bit-0 slot, and the fallback then scans raw `buckets` and evicts the
tombstoned frame 0 instead of frame 1. -/
theorem c8_fallback_evicts_tombstoned_frame :
    runRep (ClockReplacer.mk0 3) c8Ops = some c8State ∧
    c8State.Size = 1 ∧
    eligibleB c8State 1 = true ∧
    refBitOf c8State 1 = 1 ∧
    eligibleB c8State 0 = false ∧
    c8State.recent_pinned.contains 0 = true ∧
    c8State.Victim = some (true, 0, c8Vic) := by decide

/-- C9.  For any two distinct frames `A`, `B` of a capacity-3 replacer,
after `unpin A; unpin B; pin A; unpin A` frame `A` carries reference bit
1; the first `Victim` call skips `A`, clears its bit to 0 and returns
`B`, and the second `Victim` call returns `A`. -/
theorem c9_second_chance_scenario :
    ∀ A B : Nat, A < 3 → B < 3 → A ≠ B →
      c9obs A B = some (1, true, (B : Int), 0, true, (A : Int)) := by
  intro A B hA hB hAB
  interval_cases A <;> interval_cases B <;> first
    | exact absurd rfl hAB
    | decide

/-- Witness for C9 at the concrete frames `A = 0`, `B = 1`. -/
theorem c9_second_chance_scenario_witness :
    c9obs 0 1 = some (1, true, 1, 0, true, 0) :=
  c9_second_chance_scenario 0 1 (by decide) (by decide) (by decide)

/-- C10.  `FlushPageImpl` on a resident page returns success, appends
exactly one write of the frame's current bytes to the disk log, and
leaves every pool component — pages (so pin counts, bindings and the
dirty flag), page table, free list, replacer, bound count — unchanged. -/
theorem c10_flush_writes_bytes_changes_nothing_else
    (s : BufferPoolManager) (pid fid : Int)
    (h : alookup s.page_table_ pid = some fid) :
    (s.FlushPageImpl pid).1 = true ∧
    (s.FlushPageImpl pid).2.pages_ = s.pages_ ∧
    (s.FlushPageImpl pid).2.page_table_ = s.page_table_ ∧
    (s.FlushPageImpl pid).2.free_list_ = s.free_list_ ∧
    (s.FlushPageImpl pid).2.replacer_ = s.replacer_ ∧
    (s.FlushPageImpl pid).2.cur_size_ = s.cur_size_ ∧
    (s.FlushPageImpl pid).2.disk_manager_.log_ =
      s.disk_manager_.log_ ++ [DiskEv.writeP pid (s.getPage fid).data_] := by
  simp [BufferPoolManager.FlushPageImpl, DiskManager.WritePage, h]

/-- Witness for C10 at the concrete state `c10State` (page 0 resident and
dirty in frame 0): flushing writes the bytes and the dirty flag survives. -/
theorem c10_flush_witness :
    alookup c10State.page_table_ 0 = some 0 ∧
    (c10State.FlushPageImpl 0).1 = true ∧
    (c10State.FlushPageImpl 0).2.pages_ = c10State.pages_ ∧
    (c10State.getPage 0).is_dirty_ = true := by
  refine ⟨by decide, ?_, ?_, by decide⟩
  · exact (c10_flush_writes_bytes_changes_nothing_else c10State 0 0 (by decide)).1
  · exact (c10_flush_writes_bytes_changes_nothing_else c10State 0 0 (by decide)).2.1

/-- Splitting an association-list lookup across an append. -/
theorem alookup_append (t1 t2 : List (Int × Int)) (k : Int) :
    alookup (t1 ++ t2) k =
      match alookup t1 k with
      | some v => some v
      | none => alookup t2 k := by
  induction t1 with
  | nil => rfl
  | cons e rest ih =>
    simp only [List.cons_append, alookup]
    cases he : e.1 == k <;> simp [he, ih]

/-- Setting an absent key appends the entry. -/
theorem aset_of_none (t : List (Int × Int)) (k v : Int) (h : alookup t k = none) :
    aset t k v = t ++ [(k, v)] := by
  induction t with
  | nil => rfl
  | cons e rest ih =>
    cases he : e.1 == k
    · simp only [alookup, he] at h
      simp only [aset, he, Bool.false_eq_true, if_false, List.cons_append, List.cons.injEq,
        true_and]
      exact ih (by simpa using h)
    · simp [alookup, he] at h

/-- Unfolding of the canonical page table by one binding. -/
theorem canonTable_succ (k : Nat) :
    canonTable (k + 1) = canonTable k ++ [((k : Int), (k : Int))] := by
  simp [canonTable, List.range_succ]

/-- Unfolding of the canonical disk log by one allocation. -/
theorem canonLog_succ (k : Nat) :
    canonLog (k + 1) = canonLog k ++ [DiskEv.allocP (k : Int)] := by
  simp [canonLog, List.range_succ]

/-- A page id outside `0..k-1` is absent from the canonical page table. -/
theorem alookup_canonTable (k : Nat) (pid : Int) (h : ¬ (0 ≤ pid ∧ pid < (k : Int))) :
    alookup (canonTable k) pid = none := by
  induction k with
  | zero => rfl
  | succ k ih =>
    rw [canonTable_succ, alookup_append, ih (by intro hc; exact h ⟨hc.1, by omega⟩)]
    have hk : ((k : Int) == pid) = false := by
      simp only [beq_eq_false_iff_ne, ne_eq]
      intro he
      exact h ⟨by omega, by omega⟩
    simp [alookup, hk]

/-- The canonical free list starts with frame `k` while `k < N`. -/
theorem canonFree_cons (N k : Nat) (h : k < N) :
    canonFree N k = (k : Int) :: canonFree N (k + 1) := by
  rw [canonFree, show N - k = (N - (k + 1)) + 1 from by omega, List.range'_succ]
  simp [canonFree]

/-- The canonical free list of a full pool is empty. -/
theorem canonFree_nil (N : Nat) : canonFree N N = [] := by
  simp [canonFree, Nat.sub_self, List.range']

/-- Rebinding frame `k` turns the canonical frame array of `k` bound
frames into that of `k + 1`. -/
theorem canonPages_set (N k : Nat) (h : k < N) :
    (canonPages N k).set k (boundPage k) = canonPages N (k + 1) := by
  apply List.ext_getElem?
  intro n
  by_cases hn : n = k
  · subst hn
    rw [List.getElem?_set_eq_of_lt _ (by simp [canonPages, List.length_range]; exact h)]
    simp [canonPages, List.getElem?_range, h]
  · rw [List.getElem?_set_ne (by omega)]
    by_cases hnN : n < N
    · simp only [canonPages, List.getElem?_map, List.getElem?_range, hnN, if_true,
        Option.map_some]
      by_cases hnk : n < k
      · simp [hnk, show n < k + 1 from by omega]
      · simp [hnk, show ¬ n < k + 1 from by omega]
    · have hz : (List.range N)[n]? = none := by
        simp [List.getElem?_range]
        omega
      simp [canonPages, hz]

/-- A freshly constructed pool is the canonical state with zero bindings. -/
theorem mk0_eq_canonS (N : Nat) : BufferPoolManager.mk0 N = canonS N 0 := by
  simp only [BufferPoolManager.mk0, canonS, canonPages, canonTable, canonFree, canonLog,
    Nat.sub_zero, List.range_zero, List.map_nil, Nat.not_lt_zero, if_false,
    ← List.range_eq_range']
  congr 1
  rw [List.map_const', List.length_range]

/-- One successful `NewPage` on the canonical state with `k < N` bindings
allocates page `k`, binds it into frame `k`, and yields the canonical
state with `k + 1` bindings. -/
theorem newpage_canon (N k : Nat) (h : k < N) :
    (canonS N k).NewPageImpl = some (some ((k : Int), (k : Int)), canonS N (k + 1)) := by
  have hne : (((k : Nat) : Int) == ((N : Nat) : Int)) = false := by
    simp only [beq_eq_false_iff_ne, ne_eq]
    intro he
    omega
  have hlt : ((k : Int) < (N : Int)) := by exact_mod_cast h
  have htab : alookup (canonTable k) (k : Int) = none :=
    alookup_canonTable k _ (by omega)
  have haset : aset (canonTable k) (k : Int) (k : Int) = canonTable (k + 1) := by
    rw [aset_of_none _ _ _ htab, ← canonTable_succ]
  have hsucc : ((k : Int) + 1) = (((k + 1) : Nat) : Int) := by push_cast; ring
  have htn : ((k : Int)).toNat = k := Int.toNat_ofNat k
  rw [BufferPoolManager.NewPageImpl]
  simp only [canonS, hne, Bool.false_and, Bool.false_eq_true, if_false,
    DiskManager.AllocatePage, hlt, if_true, canonFree_cons N k h,
    BufferPoolManager.update_page_metadata, BufferPoolManager.setPage,
    BufferPoolManager.getPage, ClockReplacer.Pin, ClockReplacer.mk0, alookup,
    Option.isNone_none, haset, htn, hsucc, ← canonLog_succ]
  simp only [← hsucc]
  have hbp : (Page.mk ((k : Nat) : Int) 1 false 0) = boundPage k := rfl
  rw [hbp, canonPages_set N k h]

/-- `NewPage` on a full canonical pool fails: the free list is empty and
the untouched replacer has no victim. -/
theorem newpage_full (N : Nat) :
    (canonS N N).NewPageImpl = some (none, canonS N N) := by
  rw [BufferPoolManager.NewPageImpl]
  simp [canonS, canonFree_nil, ClockReplacer.Victim, ClockReplacer.mk0]

/-- `FetchPage` of a non-resident page on a full canonical pool fails. -/
theorem fetch_full (N : Nat) (q : Int) (h : alookup (canonTable N) q = none) :
    (canonS N N).FetchPageImpl q = some (none, canonS N N) := by
  rw [BufferPoolManager.FetchPageImpl]
  simp [canonS, h, canonFree_nil, ClockReplacer.Victim, ClockReplacer.mk0]

/-- `FetchPage` of a non-resident page on a canonical pool with a free
frame is undefined: the victim frame `k` was never bound, its page id is
the sentinel, and the page-table erase finds no entry. -/
theorem fetch_canon_ub (N k : Nat) (hk : k < N) (q : Int)
    (hq : alookup (canonTable k) q = none) :
    (canonS N k).FetchPageImpl q = none := by
  rw [BufferPoolManager.FetchPageImpl]
  have hne : (((k : Nat) : Int) == -1) = false := by
    simp only [beq_eq_false_iff_ne, ne_eq]
    omega
  have hpage : (canonPages N k)[k]? = some Page.init := by
    simp [canonPages, List.getElem?_map, List.getElem?_range, hk]
  have hinv : alookup (canonTable k) (-1 : Int) = none :=
    alookup_canonTable k _ (by omega)
  simp [canonS, hq, canonFree_cons N k hk, hne, BufferPoolManager.getPage, hpage,
    Page.init, INVALID_PAGE_ID, hinv]

/-- Unfolding of the realized page-id list by one allocation. -/
theorem canonIds_succ (k len : Nat) :
    canonIds k (len + 1) = (k : Int) :: canonIds (k + 1) len := by
  simp [canonIds, List.range'_succ]

/-- A defined, all-successful run of new/fetch calls whose page ids are
pairwise distinct and avoid the residents, started from the canonical
state with `k` bindings, fits in the pool and ends in the canonical
state: every such call is a `NewPage` allocating pages `k, k+1, ...`
(a successful fetch would either repeat a page id or hit the undefined
erase of `FetchPageImpl` on a never-bound victim frame). -/
theorem runNF_canon (ops : List (Option Int)) :
    ∀ (N k : Nat) (s : BufferPoolManager) (ids : List Int),
    k ≤ N →
    runNF (canonS N k) ops = some (s, ids) →
    (∀ pid ∈ ids, ¬ (0 ≤ pid ∧ pid < (k : Int))) →
    ids.Pairwise (· ≠ ·) →
    k + ops.length ≤ N ∧ s = canonS N (k + ops.length) ∧
      ids = canonIds k ops.length := by
  induction ops with
  | nil =>
    intro N k s ids hkN hrun hfresh hdist
    simp only [runNF, Option.some.injEq, Prod.mk.injEq] at hrun
    obtain ⟨rfl, rfl⟩ := hrun
    refine ⟨by simpa using hkN, by simp, by simp [canonIds, List.range']⟩
  | cons op rest ih =>
    intro N k s ids hkN hrun hfresh hdist
    rw [runNF] at hrun
    cases hstep : stepNF (canonS N k) op with
    | none => rw [hstep] at hrun; cases hrun
    | some pr =>
      obtain ⟨pid0, s1⟩ := pr
      rw [hstep] at hrun
      dsimp only at hrun
      cases hrest : runNF s1 rest with
      | none => rw [hrest] at hrun; cases hrun
      | some p =>
        obtain ⟨t, ids'⟩ := p
        rw [hrest] at hrun
        simp only [Option.some.injEq, Prod.mk.injEq] at hrun
        obtain ⟨rfl, rfl⟩ := hrun
        cases op with
        | some pid =>
          have hpe : pid0 = pid := by
            simp only [stepNF] at hstep
            cases hF : (canonS N k).FetchPageImpl pid with
            | none => rw [hF] at hstep; cases hstep
            | some r =>
              obtain ⟨fr, s'⟩ := r
              rw [hF] at hstep
              cases fr with
              | none => cases hstep
              | some fid =>
                simp only [Option.some.injEq, Prod.mk.injEq] at hstep
                exact hstep.1.symm
          subst hpe
          have hq : alookup (canonTable k) pid0 = none :=
            alookup_canonTable k pid0 (hfresh pid0 (List.mem_cons_self _ _))
          rcases Nat.lt_or_ge k N with hk | hk
          · rw [stepNF, fetch_canon_ub N k hk pid0 hq] at hstep
            cases hstep
          · obtain rfl : N = k := Nat.le_antisymm hk hkN
            rw [stepNF, fetch_full N pid0 hq] at hstep
            cases hstep
        | none =>
          rcases Nat.lt_or_ge k N with hk | hk
          · have hval : stepNF (canonS N k) none = some ((k : Int), canonS N (k + 1)) := by
              rw [stepNF, newpage_canon N k hk]
            rw [hstep] at hval
            simp only [Option.some.injEq, Prod.mk.injEq] at hval
            obtain ⟨rfl, rfl⟩ := hval
            have hfresh' : ∀ pid ∈ ids', ¬ (0 ≤ pid ∧ pid < ((k + 1 : Nat) : Int)) := by
              intro pid hp hc
              have hne := (List.pairwise_cons.mp hdist).1 pid hp
              have hold := hfresh pid (List.mem_cons_of_mem _ hp)
              have : pid = (k : Int) := by
                push_cast at hc hold ⊢
                omega
              exact hne this.symm
            obtain ⟨h1, h2, h3⟩ := ih N (k + 1) t ids' hk hrest hfresh'
              (List.pairwise_cons.mp hdist).2
            refine ⟨by simpa [Nat.add_comm, Nat.add_left_comm] using h1, ?_, ?_⟩
            · rw [h2]
              congr 1
              simp [List.length_cons]
              omega
            · rw [List.length_cons, canonIds_succ, h3]
          · obtain rfl : N = k := Nat.le_antisymm hk hkN
            rw [stepNF, newpage_full N] at hstep
            cases hstep

/-- C6.  With pool size `N`, any defined sequence of `N` successful
new/fetch calls on pairwise-distinct page ids (and no unpins) exhausts
the pool: the next `NewPage` returns the failure value, and so does a
fetch of any page id not in the page table. -/
theorem c6_capacity_bound (N : Nat) (ops : List (Option Int)) (s : BufferPoolManager)
    (ids : List Int)
    (hlen : ops.length = N)
    (hrun : runNF (BufferPoolManager.mk0 N) ops = some (s, ids))
    (hdist : ids.Pairwise (· ≠ ·)) :
    (s.NewPageImpl).map (·.1) = some none ∧
    ∀ q, alookup s.page_table_ q = none → (s.FetchPageImpl q).map (·.1) = some none := by
  rw [mk0_eq_canonS] at hrun
  obtain ⟨hle, rfl, hids⟩ := runNF_canon ops N 0 s ids (Nat.zero_le N) hrun
    (by intro pid hp hc; push_cast at hc; omega) hdist
  rw [Nat.zero_add, hlen]
  constructor
  · rw [newpage_full]
    rfl
  · intro q hq
    rw [fetch_full N q hq]
    rfl

/-- Witness for C6 at pool size `2`: two successful `NewPage` calls fill
the pool, and the third call — `NewPage` or a fetch of the fresh page id
`5` — returns the failure value. -/
theorem c6_capacity_bound_witness :
    runNF (BufferPoolManager.mk0 2) [none, none] = some (canonS 2 2, [0, 1]) ∧
    ((canonS 2 2).NewPageImpl).map (·.1) = some none ∧
    ((canonS 2 2).FetchPageImpl 5).map (·.1) = some none := by
  have h := c6_capacity_bound 2 [none, none] (canonS 2 2) [0, 1] rfl (by decide)
    (by decide)
  exact ⟨by decide, h.1, h.2 5 (by decide)⟩

end Bustub
